import Mathlib

/-!
Shallow embedding of the train-delay-notifier pipeline.

The repository contains three generations of the same pipeline:
* `src/src/index.ts` — SMTP (nodemailer) version, modelled in namespace `IndexTs`;
* the first document of `src/unnamed/part_001` (`check-delay.ts`, Resend API
  version), modelled in namespace `CheckDelay`;
* the second document of `src/unnamed/part_001` (Cloudflare Workers version),
  modelled in namespace `Worker`.

External effects (HTTP fetch, DOM text extraction via cheerio, clock, SMTP /
Resend transport) are modelled as explicit inputs: a fetch becomes an
`Except String _` value (`.error e` is a thrown exception whose rendered
message is `e`), the DOM-derived text blobs become `String` arguments, the
clock becomes a timestamp argument, and the mail transport becomes an
`Except` outcome argument.  Regular-expression capture groups used only to
build human-readable messages are passed as `Option String` arguments
(`none` = the regex did not match); the keyword *tests* that drive control
flow are modelled exactly, as substring checks.
-/

/-- `status ∈ {normal, delayed, suspended, unknown}` from the TS union type
`'normal' | 'delayed' | 'suspended' | 'unknown'`. -/
inductive Status where
  | normal
  | delayed
  | suspended
  | unknown
deriving DecidableEq, Repr

/-- `kw` occurs as a contiguous run inside the character list: it is a
prefix of some suffix. -/
def containsChars (pat : List Char) : List Char → Bool
  | [] => pat.isPrefixOf []
  | c :: t => pat.isPrefixOf (c :: t) || containsChars pat t

/-- JS `text.includes(kw)` / an alternation-only regex test: `kw` occurs as a
contiguous substring of `text`. -/
def containsKw (text kw : String) : Bool :=
  containsChars kw.data text.data

/-- JS `s.substring(0, n)` (the code only ever uses start index 0). -/
def jsSubstring (s : String) (n : Nat) : String :=
  ⟨s.data.take n⟩

/-- The ECMAScript whitespace class `\s` (also the character set stripped by
`String.prototype.trim`): tab, line terminators, and the Unicode space
separators, including the ideographic space U+3000 and the BOM U+FEFF. -/
def jsWhitespace (c : Char) : Bool :=
  ['\t', '\n', '\x0b', '\x0c', '\r', ' ', ' ', ' ', ' ',
   ' ', ' ', ' ', ' ', ' ', ' ', ' ',
   ' ', ' ', ' ', ' ', ' ', ' ', ' ',
   '　', '﻿'].contains c

/-- JS `s.trim()`: remove leading and trailing `\s`-class characters. -/
def jsTrim (s : String) : String :=
  ⟨((s.data.dropWhile jsWhitespace).reverse.dropWhile jsWhitespace).reverse⟩

/-- Dropping a prefix never lengthens a list (termination measure for the
tag-stripping normalizer below). -/
theorem dropWhileLengthLe {α : Type} (p : α → Bool) (l : List α) :
    (l.dropWhile p).length ≤ l.length := by
  induction l with
  | nil => simp
  | cons a l ih =>
    rw [List.dropWhile_cons]
    split
    · exact Nat.le_succ_of_le ih
    · simp

/-- Strict bound used as the termination measure of `Worker.collapseWs`. -/
theorem dropWhileLtSucc {α : Type} (p : α → Bool) (l : List α) :
    (l.dropWhile p).length < l.length + 1 :=
  Nat.lt_succ_of_le (dropWhileLengthLe p l)

/-- Strict bound used as the termination measure of `Worker.stripTags`. -/
theorem tailDropWhileLtSucc {α : Type} (p : α → Bool) (l : List α) :
    ((l.dropWhile p).tail).length < l.length + 1 := by
  have := dropWhileLengthLe p l
  rw [List.length_tail]; omega

namespace IndexTs

/-- `LineStatus` of `src/src/index.ts`; the `Date` timestamp is modelled as an
abstract `Nat` instant. -/
structure LineStatus where
  lineName : String
  operator : String
  status : Status
  message : String
  timestamp : Nat
deriving DecidableEq, Repr

/-- `CheckResult` of `src/src/index.ts`. -/
structure CheckResult where
  hasDelay : Bool
  lines : List LineStatus
deriving DecidableEq, Repr

/-- `delayKeywords` of `checkKeiyoLine`. -/
def keiyoDelayKeywords : List String :=
  ["遅延", "遅れ", "運転見合", "運休", "運転取りやめ", "折返し運転"]

/-- `normalKeywords` of `checkKeiyoLine`. -/
def keiyoNormalKeywords : List String :=
  ["平常運転", "平常どおり"]

/-- `delayKeywords` of `checkHibiyaLine`. -/
def hibiyaDelayKeywords : List String :=
  ["遅延", "遅れ", "運転見合", "運休", "折返し運転", "直通運転中止"]

/-- `normalKeywords` of `checkHibiyaLine`. -/
def hibiyaNormalKeywords : List String :=
  ["平常運転", "平常どおり", "通常運行"]

/-- `keyword.includes('運休') || keyword.includes('見合') ? 'suspended' :
'delayed'` — the severity mapping both checkers apply to the first matching
disruption keyword. -/
def keywordSeverity (kw : String) : Status :=
  if containsKw kw "運休" || containsKw kw "見合" then .suspended else .delayed

/-- The keyword loops of `checkKeiyoLine` (lines 84–108): scan
`delayKeywords` in order, first match wins and gets its severity; otherwise
scan `normalKeywords`; otherwise `unknown`.  `infoText` is
`$('.info, .delay-info, .status').first().text()` (DOM extraction is the
collaborator; the `.trim()` and the `||` fallback are code and are
modelled). -/
def classifyKeiyo (statusText infoText : String) : Status × String :=
  match keiyoDelayKeywords.find? (fun kw => containsKw statusText kw) with
  | some kw =>
    (keywordSeverity kw,
      if jsTrim infoText = "" then kw ++ "が発生しています" else jsTrim infoText)
  | none =>
    match keiyoNormalKeywords.find? (fun kw => containsKw statusText kw) with
    | some _ => (.normal, "平常運転")
    | none => (.unknown, "ステータス不明（ページ構造が変更された可能性）")

/-- The keyword loops of `checkHibiyaLine` (lines 159–182), including the
Tokyo-Metro silence-is-normal default: no keyword at all still yields
`normal`. -/
def classifyHibiya (statusText : String) : Status × String :=
  match hibiyaDelayKeywords.find? (fun kw => containsKw statusText kw) with
  | some kw => (keywordSeverity kw, kw ++ "が発生しています")
  | none =>
    match hibiyaNormalKeywords.find? (fun kw => containsKw statusText kw) with
    | some _ => (.normal, "平常運転")
    | none => (.normal, "運行情報なし（15分以上の遅延なし）")

/-- `checkKeiyoLine`: the fetch + cheerio extraction is the input; `.ok`
carries `(statusText, infoText)`, `.error e` is any thrown failure (network
error or the `HTTP ${status}` throw) whose rendered message is `e`.  The
catch block converts it to an `unknown` status. -/
def checkKeiyoLine (fetched : Except String (String × String)) (now : Nat) :
    LineStatus :=
  match fetched with
  | .ok (statusText, infoText) =>
    let (st, msg) := classifyKeiyo statusText infoText
    { lineName := "京葉線", operator := "JR東日本", status := st,
      message := msg, timestamp := now }
  | .error e =>
    { lineName := "京葉線", operator := "JR東日本", status := .unknown,
      message := "チェック失敗: " ++ e, timestamp := now }

/-- `checkHibiyaLine`, analogously (`.ok` carries the body text). -/
def checkHibiyaLine (fetched : Except String String) (now : Nat) :
    LineStatus :=
  match fetched with
  | .ok statusText =>
    let (st, msg) := classifyHibiya statusText
    { lineName := "日比谷線", operator := "東京メトロ", status := st,
      message := msg, timestamp := now }
  | .error e =>
    { lineName := "日比谷線", operator := "東京メトロ", status := .unknown,
      message := "チェック失敗: " ++ e, timestamp := now }

/-- `checkAllLines`: run both checks, keep configuration order
`[keiyo, hibiya]`, and derive `hasDelay` via
`lines.some(l => l.status === 'delayed' || l.status === 'suspended')`. -/
def checkAllLines (fk : Except String (String × String))
    (fh : Except String String) (now : Nat) : CheckResult :=
  let keiyo := checkKeiyoLine fk now
  let hibiya := checkHibiyaLine fh now
  let lines := [keiyo, hibiya]
  { hasDelay := lines.any fun l =>
      l.status == Status.delayed || l.status == Status.suspended,
    lines := lines }

/-- `CONFIG.email`: fully-resolved configuration values (environment
variables resolve to `''` when unset, which is what the completeness check
tests for). -/
structure EmailConfig where
  toEmail : String
  fromEmail : String
  smtpHost : String
  smtpPort : Nat
  smtpUser : String
  smtpPass : String
deriving DecidableEq, Repr

/-- The argument object of `transporter.sendMail` — the payload handed to the
mail transport collaborator. -/
structure MailPayload where
  fromEmail : String
  toEmail : String
  subject : String
  text : String
  html : String
deriving DecidableEq, Repr

/-- The `statusEmoji` helper inside `sendEmail` (the `default` arm of the
switch is `unknown`, the only remaining case). -/
def statusEmoji : Status → String
  | .normal => "✅"
  | .delayed => "⚠️"
  | .suspended => "🚫"
  | .unknown => "❓"

/-- `delayedLines` of `sendEmail`:
`result.lines.filter(l => l.status === 'delayed' || l.status === 'suspended')`. -/
def delayedLines (result : CheckResult) : List LineStatus :=
  result.lines.filter fun l =>
    l.status == Status.delayed || l.status == Status.suspended

/-- The `subject` template literal of `sendEmail`. -/
def emailSubject (result : CheckResult) : String :=
  "🚃 電車遅延アラート: " ++
    String.intercalate ", " ((delayedLines result).map (·.lineName))

/-- The per-line `<div>` template inside `htmlBody`
(`result.lines.map(line => ...)`). -/
def htmlLineDiv (line : LineStatus) : String :=
  "\n      <div class=\"line-status " ++
    (if line.status == Status.normal then "normal" else "") ++
    "\">\n        <div class=\"line-name\">" ++ statusEmoji line.status ++
    " " ++ line.lineName ++ "（" ++ line.operator ++
    "）</div>\n        <div class=\"line-message\">" ++ line.message ++
    "</div>\n      </div>\n    "

/-- The `htmlBody` template literal of `sendEmail` (CSS braces written as
escapes; `nowStr` is `new Date().toLocaleString('ja-JP', ...)`, produced by
the clock collaborator).  The trailing `.trim()` of the source is applied. -/
def htmlBody (result : CheckResult) (nowStr : String) : String :=
  jsTrim <|
    "\n<!DOCTYPE html>\n<html>\n<head>\n  <meta charset=\"utf-8\">\n  <style>\n"
    ++ "    body \x7b font-family: -apple-system, BlinkMacSystemFont, \x27Segoe UI\x27, sans-serif; max-width: 600px; margin: 0 auto; padding: 20px; \x7d\n"
    ++ "    .header \x7b background: #e74c3c; color: white; padding: 15px; border-radius: 8px 8px 0 0; \x7d\n"
    ++ "    .content \x7b background: #f9f9f9; padding: 20px; border-radius: 0 0 8px 8px; \x7d\n"
    ++ "    .line-status \x7b background: white; padding: 15px; margin: 10px 0; border-radius: 8px; border-left: 4px solid #e74c3c; \x7d\n"
    ++ "    .line-status.normal \x7b border-left-color: #27ae60; \x7d\n"
    ++ "    .line-name \x7b font-size: 18px; font-weight: bold; margin-bottom: 8px; \x7d\n"
    ++ "    .line-message \x7b color: #666; \x7d\n"
    ++ "    .timestamp \x7b color: #999; font-size: 12px; margin-top: 20px; \x7d\n"
    ++ "  </style>\n</head>\n<body>\n  <div class=\"header\">\n"
    ++ "    <h2 style=\"margin: 0;\">🚃 電車遅延アラート</h2>\n"
    ++ "    <p style=\"margin: 5px 0 0 0;\">帰宅ルートに遅延が発生しています</p>\n"
    ++ "  </div>\n  <div class=\"content\">\n    "
    ++ String.join (result.lines.map htmlLineDiv)
    ++ "\n    <p class=\"timestamp\">\n      チェック時刻: " ++ nowStr
    ++ "\n    </p>\n  </div>\n</body>\n</html>\n  "

/-- The `textBody` of `sendEmail`. -/
def textBody (result : CheckResult) : String :=
  String.intercalate "\n" <| result.lines.map fun line =>
    statusEmoji line.status ++ " " ++ line.lineName ++ "（" ++ line.operator ++
      "）: " ++ line.message

/-- The single payload `sendEmail` builds for `transporter.sendMail`. -/
def mailPayload (cfg : EmailConfig) (result : CheckResult) (nowStr : String) :
    MailPayload :=
  { fromEmail := cfg.fromEmail, toEmail := cfg.toEmail, subject := emailSubject result,
    text := textBody result, html := htmlBody result nowStr }

/-- `sendEmail` of `src/src/index.ts`.  Returns the list of
`transporter.sendMail` invocations (the send collaborator's call sequence)
together with the control outcome of the function body: `sendMail` is
awaited with **no** surrounding `try`/`catch`, so a transport failure
(`outcome = .error e`) escapes `sendEmail` itself.  An incomplete
configuration returns early, before any transport call. -/
def sendEmail (cfg : EmailConfig) (result : CheckResult) (nowStr : String)
    (outcome : Except String Unit) : List MailPayload × Except String Unit :=
  if cfg.toEmail = "" ∨ cfg.smtpUser = "" ∨ cfg.smtpPass = "" then ([], .ok ())
  else ([mailPayload cfg result nowStr], outcome)

/-- The dispatch decision of `main` (lines 329–335): the send path runs only
when `result.hasDelay`; `main` itself adds no `try`/`catch`, so whatever
`sendEmail` raises propagates (it is only intercepted by the top-level
`main().catch(console.error)`). -/
def mainDispatch (cfg : EmailConfig) (result : CheckResult) (nowStr : String)
    (outcome : Except String Unit) : List MailPayload × Except String Unit :=
  if result.hasDelay then sendEmail cfg result nowStr outcome
  else ([], .ok ())

end IndexTs

/-- `DelayInfo` — the interface is textually identical in both documents of
`src/unnamed/part_001` (`check-delay.ts` and the Cloudflare Workers
version); the ISO timestamp is the clock collaborator's string. -/
structure DelayInfo where
  line : String
  operator : String
  status : Status
  message : String
  timestamp : String
deriving DecidableEq, Repr

/-- The `'hibiya' | 'keiyo'` union used to select a Yahoo URL. -/
inductive LineKey where
  | hibiya
  | keiyo
deriving DecidableEq, Repr

/-- `lineKey === 'hibiya' ? '日比谷線' : '京葉線'`. -/
def lineKeyName : LineKey → String
  | .hibiya => "日比谷線"
  | .keiyo => "京葉線"

/-- `lineKey === 'hibiya' ? '東京メトロ' : 'JR東日本'`. -/
def lineKeyOperator : LineKey → String
  | .hibiya => "東京メトロ"
  | .keiyo => "JR東日本"

/-- `/遅延|遅れ|運転見合|運休|ダイヤ乱れ/.test(t)` — the `hasDelay` test of
both Yahoo-based checkers (and of `checkJRKeiyo`). -/
def yahooDelayTest (t : String) : Bool :=
  ["遅延", "遅れ", "運転見合", "運休", "ダイヤ乱れ"].any (containsKw t)

/-- The `isNormal` test of both Yahoo-based checkers:
`t.includes('平常運転') || t.includes('現在､事故･遅延に関する情報はありません')`. -/
def yahooNormalTest (t : String) : Bool :=
  containsKw t "平常運転" || containsKw t "現在､事故･遅延に関する情報はありません"

namespace CheckDelay

/-- `/遅延|遅れ|運転見合|折返し運転|運休/.test(statusText)` — the `hasDelay`
test of `checkMetroHibiya`. -/
def metroHibiyaDelayTest (statusText : String) : Bool :=
  ["遅延", "遅れ", "運転見合", "折返し運転", "運休"].any (containsKw statusText)

/-- The `isNormal` expression of `checkMetroHibiya` (computed by the source
but never read afterwards — only `hasDelay` drives the branch). -/
def metroHibiyaNormalTest (statusText : String) : Bool :=
  ["平常運転", "通常運転", "平常どおり"].any (containsKw statusText) ||
    (containsKw statusText "15分以上の遅れが発生" && !metroHibiyaDelayTest statusText)

/-- `checkMetroHibiya` of `check-delay.ts`.  `delayCapture` is group 1 of
`statusText.match(/(\d+時\d+分頃.*?(?:遅延|運転見合|折返し|運休).*?)(?:\n|。)/)`
(the regex engine is a collaborator; `none` = no match).  Whenever
`hasDelay` holds the status is `'delayed'` — this checker never produces
`'suspended'`. -/
def checkMetroHibiya (fetched : Except String String)
    (delayCapture : Option String) (ts : String) : DelayInfo :=
  match fetched with
  | .ok statusText =>
    if metroHibiyaDelayTest statusText then
      { line := "日比谷線", operator := "東京メトロ", status := .delayed,
        message := delayCapture.getD "延误详情请查看官网", timestamp := ts }
    else
      { line := "日比谷線", operator := "東京メトロ", status := .normal,
        message := "平常運転", timestamp := ts }
  | .error e =>
    { line := "日比谷線", operator := "東京メトロ", status := .unknown,
      message := "检查失败: " ++ e, timestamp := ts }

/-- `/平常運転|平常通り|通常どおり/.test(statusText)` of `checkJRKeiyo`. -/
def jrKeiyoNormalTest (statusText : String) : Bool :=
  ["平常運転", "平常通り", "通常どおり"].any (containsKw statusText)

/-- `checkJRKeiyo` of `check-delay.ts`.  The delayed branch requires
`hasDelay && !isNormal`: a normal keyword suppresses the disruption
branch.  `delayCapture` is group 1 of
`statusText.match(/(.*?(?:遅延|遅れ|運転見合|運休|ダイヤ乱れ).*?)(?:\n|。)/)`;
the message truncates it with `.substring(0, 200)`. -/
def checkJRKeiyo (fetched : Except String String)
    (delayCapture : Option String) (ts : String) : DelayInfo :=
  match fetched with
  | .ok statusText =>
    if yahooDelayTest statusText && !jrKeiyoNormalTest statusText then
      { line := "京葉線", operator := "JR東日本", status := .delayed,
        message := match delayCapture with
          | some m => jsSubstring m 200
          | none => "延误详情请查看官网",
        timestamp := ts }
    else
      { line := "京葉線", operator := "JR東日本", status := .normal,
        message := "平常運転", timestamp := ts }
  | .error e =>
    { line := "京葉線", operator := "JR東日本", status := .unknown,
      message := "检查失败: " ++ e, timestamp := ts }

/-- `checkYahooTransit` of `check-delay.ts`.  `statusArea` is
`$('.trouble').text() || $('body').text()` (DOM extraction is the
collaborator).  The delayed branch requires `hasDelay && !isNormal` and the
message is `statusArea.substring(0, 300)`; this checker never produces
`'suspended'`. -/
def checkYahooTransit (lineKey : LineKey) (fetched : Except String String)
    (ts : String) : DelayInfo :=
  match fetched with
  | .ok statusArea =>
    if yahooDelayTest statusArea && !yahooNormalTest statusArea then
      { line := lineKeyName lineKey, operator := lineKeyOperator lineKey,
        status := .delayed, message := jsSubstring statusArea 300,
        timestamp := ts }
    else
      { line := lineKeyName lineKey, operator := lineKeyOperator lineKey,
        status := .normal, message := "平常運転", timestamp := ts }
  | .error e =>
    { line := lineKeyName lineKey, operator := lineKeyOperator lineKey,
      status := .unknown, message := "检查失败: " ++ e, timestamp := ts }

/-- The result list built by `main`:
`const [hibiya, keiyo] = await Promise.all([checkYahooTransit('hibiya'),
checkYahooTransit('keiyo')]); const results = [hibiya, keiyo]`. -/
def mainResults (fh fk : Except String String) (th tk : String) :
    List DelayInfo :=
  [checkYahooTransit .hibiya fh th, checkYahooTransit .keiyo fk tk]

/-- `results.some(r => r.status === 'delayed')` — the notification flag of
`main`. -/
def hasDelays (results : List DelayInfo) : Bool :=
  results.any fun r => r.status == Status.delayed

/-- The Resend request body (`JSON.stringify({from, to, subject, html})`). -/
structure ResendPayload where
  fromEmail : String
  toEmail : String
  subject : String
  html : String
deriving DecidableEq, Repr

/-- Outcome of `fetch('https://api.resend.com/emails', ...)`: `.error e` is a
thrown network failure, `.ok r` is a response with `r.ok` its status flag
and `r.body` the `response.text()` used in the failure log. -/
structure ResendOutcome where
  ok : Bool
  body : String
deriving DecidableEq, Repr

/-- `delays.filter(d => d.status === 'delayed')` — note `'suspended'` is not
included. -/
def resendDelayedLines (delays : List DelayInfo) : List DelayInfo :=
  delays.filter fun d => d.status == Status.delayed

/-- The `subject` template of the Resend `sendEmail`. -/
def resendSubject (delayedLines : List DelayInfo) : String :=
  "🚃 電車遅延通知: " ++ String.intercalate ", " (delayedLines.map (·.line))

/-- The per-line `<div>` of the Resend `html` template. -/
def resendLineDiv (d : DelayInfo) : String :=
  "\n        <div style=\"border-left: 4px solid #e74c3c; padding-left: 16px; margin: 16px 0;\">\n          <h3 style=\"margin: 0;\">"
    ++ d.operator ++ " " ++ d.line
    ++ "</h3>\n          <p style=\"color: #333;\">" ++ d.message
    ++ "</p>\n        </div>\n      "

/-- The `html` template literal of the Resend `sendEmail` (`jstTime` is the
formatted clock string). -/
def resendHtml (jstTime : String) (delayedLines : List DelayInfo) : String :=
  "\n    <div style=\"font-family: sans-serif; max-width: 600px; margin: 0 auto;\">\n      <h2 style=\"color: #e74c3c;\">⚠️ 電車遅延情報</h2>\n      <p style=\"color: #666;\">確認時刻: "
    ++ jstTime ++ " (JST)</p>\n      \n      "
    ++ String.join (delayedLines.map resendLineDiv)
    ++ "\n      \n      <hr style=\"border: none; border-top: 1px solid #eee; margin: 24px 0;\">\n      \n      <p style=\"font-size: 12px; color: #999;\">\n        詳細は公式サイトをご確認ください：<br>\n        <a href=\"https://www.tokyometro.jp/unkou/\">東京メトロ運行情報</a> | \n        <a href=\"https://traininfo.jreast.co.jp/train_info/\">JR東日本運行情報</a>\n      </p>\n    </div>\n  "

/-- `sendEmail` of `check-delay.ts` (Resend API).  Environment variables are
passed resolved (`''` = unset, which is falsy like `undefined`).  Returns
the Resend API invocations, the console log lines of the send path, and the
control outcome of the body: the `fetch` sits inside `try`/`catch` and a
non-ok response is only logged, so the function never re-raises — the third
component is always `.ok ()`. -/
def sendEmail (apiKey toEmail fromEmailVar : String) (delays : List DelayInfo)
    (jstTime : String) (outcome : Except String ResendOutcome) :
    List ResendPayload × List String × Except String Unit :=
  let fromEmail := if fromEmailVar = "" then "onboarding@resend.dev"
    else fromEmailVar
  if apiKey = "" ∨ toEmail = "" then
    ([], ["Missing RESEND_API_KEY or TO_EMAIL"], .ok ())
  else
    let delayedLines := resendDelayedLines delays
    if delayedLines.isEmpty then
      ([], ["No delays detected, skipping email"], .ok ())
    else
      let payload : ResendPayload :=
        { fromEmail := fromEmail, toEmail := toEmail,
          subject := resendSubject delayedLines,
          html := resendHtml jstTime delayedLines }
      match outcome with
      | .ok r =>
        if r.ok then ([payload], ["Email sent successfully!"], .ok ())
        else ([payload], ["Failed to send email: " ++ r.body], .ok ())
      | .error e => ([payload], ["Error sending email: " ++ e], .ok ())

/-- The notification decision of `main` (lines 294–301): `sendEmail` runs
iff `hasDelays`. -/
def mainSends (apiKey toEmail fromEmailVar : String)
    (results : List DelayInfo) (jstTime : String)
    (outcome : Except String ResendOutcome) :
    List ResendPayload × List String × Except String Unit :=
  if hasDelays results then
    sendEmail apiKey toEmail fromEmailVar results jstTime outcome
  else ([], [], .ok ())

end CheckDelay

namespace Worker

/-- The `Env` interface of the Workers version (a secret resolves to `''`
when unset, falsy like an absent binding). -/
structure Env where
  RESEND_API_KEY : String
  TO_EMAIL : String
  FROM_EMAIL : String
deriving DecidableEq, Repr

/-- `html.replace(/<[^>]*>/g, ' ')`: each region from a `<` to the first
following `>` becomes one space; a `<` with no later `>` never matches the
regex and is kept literally. -/
def stripTags (s : List Char) : List Char :=
  match s with
  | [] => []
  | c :: rest =>
    if c = '<' then
      if rest.contains '>' then
        ' ' :: stripTags ((rest.dropWhile (fun d => d ≠ '>')).tail)
      else c :: stripTags rest
    else c :: stripTags rest
termination_by s.length
decreasing_by
  · simp only [List.length_cons]; exact tailDropWhileLtSucc _ _
  · simp only [List.length_cons]; omega
  · simp only [List.length_cons]; omega

/-- `.replace(/\s+/g, ' ')`: every maximal run of `\s`-class characters
becomes one space. -/
def collapseWs (s : List Char) : List Char :=
  match s with
  | [] => []
  | c :: rest =>
    if jsWhitespace c then ' ' :: collapseWs (rest.dropWhile jsWhitespace)
    else c :: collapseWs rest
termination_by s.length
decreasing_by
  · simp only [List.length_cons]; exact dropWhileLtSucc _ _
  · simp only [List.length_cons]; omega

/-- `const textContent = html.replace(/<[^>]*>/g, ' ').replace(/\s+/g, ' ')`
— the cheerio-free text normalizer of the Workers version. -/
def textContent (html : String) : String :=
  ⟨collapseWs (stripTags html.data)⟩

/-- `checkYahooTransit` of the Workers version: normalize the fetched html
itself, then apply the same `hasDelay && !isNormal` rule; `delayCapture` is
group 1 of
`textContent.match(/(.*?(?:遅延|遅れ|運転見合|運休|ダイヤ乱れ).*?)(?:\s{2,}|$)/)`
and the message truncates it with `.substring(0, 300)`.  This checker never
produces `'suspended'`. -/
def checkYahooTransit (lineKey : LineKey) (fetched : Except String String)
    (delayCapture : Option String) (ts : String) : DelayInfo :=
  match fetched with
  | .ok html =>
    let textC := textContent html
    if yahooDelayTest textC && !yahooNormalTest textC then
      { line := lineKeyName lineKey, operator := lineKeyOperator lineKey,
        status := .delayed,
        message := match delayCapture with
          | some m => jsSubstring m 300
          | none => "延误详情请查看官网",
        timestamp := ts }
    else
      { line := lineKeyName lineKey, operator := lineKeyOperator lineKey,
        status := .normal, message := "平常運転", timestamp := ts }
  | .error e =>
    { line := lineKeyName lineKey, operator := lineKeyOperator lineKey,
      status := .unknown, message := "检查失败: " ++ e, timestamp := ts }

/-- `results.some(r => r.status === 'delayed')` in `checkTrainDelays`. -/
def hasDelays (results : List DelayInfo) : Bool :=
  results.any fun r => r.status == Status.delayed

/-- `delays.filter(d => d.status === 'delayed')` of the Workers `sendEmail`. -/
def resendDelayedLines (delays : List DelayInfo) : List DelayInfo :=
  delays.filter fun d => d.status == Status.delayed

/-- `sendEmail` of the Workers version: same Resend call as `check-delay.ts`
inside `try`/`catch` (failures are only logged, never re-raised; the third
component is always `.ok ()`), with the `FROM_EMAIL || 'onboarding@resend.dev'`
default applied inside the request body. -/
def sendEmail (env : Env) (delays : List DelayInfo) (jstTime : String)
    (outcome : Except String CheckDelay.ResendOutcome) :
    List CheckDelay.ResendPayload × List String × Except String Unit :=
  if env.RESEND_API_KEY = "" ∨ env.TO_EMAIL = "" then
    ([], ["Missing RESEND_API_KEY or TO_EMAIL"], .ok ())
  else
    let delayedLines := resendDelayedLines delays
    if delayedLines.isEmpty then
      ([], ["No delays detected, skipping email"], .ok ())
    else
      let payload : CheckDelay.ResendPayload :=
        { fromEmail := if env.FROM_EMAIL = "" then "onboarding@resend.dev"
            else env.FROM_EMAIL,
          toEmail := env.TO_EMAIL,
          subject := CheckDelay.resendSubject delayedLines,
          html := CheckDelay.resendHtml jstTime delayedLines }
      match outcome with
      | .ok r =>
        if r.ok then ([payload], ["Email sent successfully!"], .ok ())
        else ([payload], ["Failed to send email: " ++ r.body], .ok ())
      | .error e => ([payload], ["Error sending email: " ++ e], .ok ())

/-- The `results` array of `checkTrainDelays`: `[hibiya, keiyo]` from the
two concurrent `checkYahooTransit` calls. -/
def runResults (fh fk : Except String String) (hCap kCap : Option String)
    (th tk : String) : List DelayInfo :=
  [checkYahooTransit .hibiya fh hCap th, checkYahooTransit .keiyo fk kCap tk]

/-- `checkTrainDelays` after the checks: the send decision and the returned
summary string. -/
def checkTrainDelays (env : Env) (results : List DelayInfo)
    (jstTime : String) (outcome : Except String CheckDelay.ResendOutcome) :
    (List CheckDelay.ResendPayload × List String × Except String Unit) × String :=
  if hasDelays results then
    (sendEmail env results jstTime outcome,
      "Delays detected: " ++ String.intercalate ", "
        (((results.filter fun r => r.status == Status.delayed).map (·.line))))
  else
    (([], [], .ok ()), "All lines running normally")

end Worker

/-- The subject the claim requires of the `index.ts` notification: the names
of exactly the `delayed`/`suspended` lines, comma-joined, in configuration
order (spec-side definition, for comparison with the code's subject). -/
def claimSubjectIndex (result : IndexTs.CheckResult) : String :=
  "🚃 電車遅延アラート: " ++ String.intercalate ", "
    ((result.lines.filter fun l =>
        l.status == Status.delayed || l.status == Status.suspended).map
      (·.lineName))

/-- The subject the claim requires of the `part_001` notification, with the
same delayed-or-suspended selection (spec-side definition). -/
def claimSubjectResend (delays : List DelayInfo) : String :=
  "🚃 電車遅延通知: " ++ String.intercalate ", "
    ((delays.filter fun d =>
        d.status == Status.delayed || d.status == Status.suspended).map
      (·.line))

/-- A one-element run result with a delayed Keiyo line (example input reused
by several concrete instantiations below). -/
def oneDelayedKeiyo : List DelayInfo :=
  [ { line := "京葉線", operator := "JR東日本", status := Status.delayed,
      message := "遅延", timestamp := "t" } ]

/-- A two-element run result pairing a suspended Hibiya line with a delayed
Keiyo line (example input for the subject-contents claim). -/
def suspendedAndDelayed : List DelayInfo :=
  [ { line := "日比谷線", operator := "東京メトロ",
      status := Status.suspended, message := "運転見合わせ",
      timestamp := "t" },
    { line := "京葉線", operator := "JR東日本", status := Status.delayed,
      message := "遅延", timestamp := "t" } ]

/-! ## Helper lemmas -/

/-- `jsSubstring s n` has at most `n` characters. -/
theorem jsSubstringLenLe (s : String) (n : Nat) : (jsSubstring s n).length ≤ n := by
  show (s.data.take n).length ≤ n
  rw [List.length_take]
  exact Nat.min_le_left _ _

/-- The `check-delay.ts` Yahoo checker can only produce `normal`, `delayed`
or `unknown` — never `suspended`. -/
theorem yahooV1NeSuspended (lk : LineKey) (f : Except String String)
    (ts : String) :
    (CheckDelay.checkYahooTransit lk f ts).status ≠ Status.suspended := by
  cases f with
  | ok t =>
    simp only [CheckDelay.checkYahooTransit]
    split <;> simp
  | error e => simp [CheckDelay.checkYahooTransit]

/-- The Workers Yahoo checker can only produce `normal`, `delayed` or
`unknown` — never `suspended`. -/
theorem yahooV2NeSuspended (lk : LineKey) (f : Except String String)
    (cap : Option String) (ts : String) :
    (Worker.checkYahooTransit lk f cap ts).status ≠ Status.suspended := by
  cases f with
  | ok t =>
    simp only [Worker.checkYahooTransit]
    split <;> simp
  | error e => simp [Worker.checkYahooTransit]

/-- `checkMetroHibiya` can only produce `normal`, `delayed` or `unknown` —
never `suspended`. -/
theorem metroHibiyaNeSuspended (f : Except String String)
    (cap : Option String) (ts : String) :
    (CheckDelay.checkMetroHibiya f cap ts).status ≠ Status.suspended := by
  cases f with
  | ok t =>
    simp only [CheckDelay.checkMetroHibiya]
    split <;> simp
  | error e => simp [CheckDelay.checkMetroHibiya]

/-- A `hasDelays` hit means the `delayed` filter is non-empty. -/
theorem resendDelayedLinesNeNil (results : List DelayInfo)
    (h : CheckDelay.hasDelays results = true) :
    (CheckDelay.resendDelayedLines results).isEmpty = false := by
  rcases List.any_eq_true.mp h with ⟨r, hr, hd⟩
  have hmem : r ∈ CheckDelay.resendDelayedLines results :=
    List.mem_filter.mpr ⟨hr, hd⟩
  cases hfil : CheckDelay.resendDelayedLines results with
  | nil => rw [hfil] at hmem; cases hmem
  | cons a t => rfl

/-! ## Claims -/

/-- C1: in every pipeline, the aggregated notification flag (`hasDelay` in
`index.ts`, `hasDelays` in the two `part_001` scripts) is true iff at least
one of the produced line results has status `delayed` or `suspended`;
`unknown` and `normal` alone never set it. -/
theorem c1_requiresNotification_iff :
    (∀ fk fh now,
      (IndexTs.checkAllLines fk fh now).hasDelay = true ↔
        ∃ l ∈ (IndexTs.checkAllLines fk fh now).lines,
          l.status = Status.delayed ∨ l.status = Status.suspended) ∧
    (∀ fh fk th tk,
      CheckDelay.hasDelays (CheckDelay.mainResults fh fk th tk) = true ↔
        ∃ r ∈ CheckDelay.mainResults fh fk th tk,
          r.status = Status.delayed ∨ r.status = Status.suspended) ∧
    (∀ fh fk hCap kCap th tk,
      Worker.hasDelays (Worker.runResults fh fk hCap kCap th tk) = true ↔
        ∃ r ∈ Worker.runResults fh fk hCap kCap th tk,
          r.status = Status.delayed ∨ r.status = Status.suspended) := by
  refine ⟨?_, ?_, ?_⟩
  · intro fk fh now
    simp [IndexTs.checkAllLines, List.any_eq_true]
  · intro fh fk th tk
    constructor
    · intro h
      rcases List.any_eq_true.mp h with ⟨r, hr, hd⟩
      exact ⟨r, hr, Or.inl (by simpa using hd)⟩
    · rintro ⟨r, hr, hd | hs⟩
      · exact List.any_eq_true.mpr ⟨r, hr, by simp [hd]⟩
      · exfalso
        have : r = CheckDelay.checkYahooTransit .hibiya fh th ∨
            r = CheckDelay.checkYahooTransit .keiyo fk tk := by
          simpa [CheckDelay.mainResults] using hr
        rcases this with rfl | rfl
        · exact yahooV1NeSuspended _ _ _ hs
        · exact yahooV1NeSuspended _ _ _ hs
  · intro fh fk hCap kCap th tk
    constructor
    · intro h
      rcases List.any_eq_true.mp h with ⟨r, hr, hd⟩
      exact ⟨r, hr, Or.inl (by simpa using hd)⟩
    · rintro ⟨r, hr, hd | hs⟩
      · exact List.any_eq_true.mpr ⟨r, hr, by simp [hd]⟩
      · exfalso
        have : r = Worker.checkYahooTransit .hibiya fh hCap th ∨
            r = Worker.checkYahooTransit .keiyo fk kCap tk := by
          simpa [Worker.runResults] using hr
        rcases this with rfl | rfl
        · exact yahooV2NeSuspended _ _ _ _ hs
        · exact yahooV2NeSuspended _ _ _ _ hs

/-- C2 counterexample: the text `遅延発生 平常運転` contains the disruption
keyword `遅延`, yet `checkJRKeiyo` classifies it `normal`, because its
`hasDelay && !isNormal` guard lets a normal keyword veto the disruption
match — the claimed unconditional precedence of disruption keywords fails. -/
theorem c2_counterexample :
    containsKw "遅延発生 平常運転" "遅延" = true ∧
    (CheckDelay.checkJRKeiyo (Except.ok "遅延発生 平常運転") none "t").status =
      Status.normal := by
  constructor <;> decide

/-- C2 (amended): in `index.ts` a disruption-keyword match wins regardless of
any normal keyword and the status is the matched keyword's severity (always
`delayed` or `suspended`); in `checkJRKeiyo` the disruption branch fires only
when additionally no normal keyword matches. -/
theorem c2_disruption_precedence :
    (∀ statusText infoText kw,
      IndexTs.keiyoDelayKeywords.find? (fun k => containsKw statusText k) =
        some kw →
      (IndexTs.classifyKeiyo statusText infoText).1 =
        IndexTs.keywordSeverity kw) ∧
    (∀ statusText kw,
      IndexTs.hibiyaDelayKeywords.find? (fun k => containsKw statusText k) =
        some kw →
      (IndexTs.classifyHibiya statusText).1 = IndexTs.keywordSeverity kw) ∧
    (∀ statusText cap ts,
      yahooDelayTest statusText = true →
      CheckDelay.jrKeiyoNormalTest statusText = false →
      (CheckDelay.checkJRKeiyo (Except.ok statusText) cap ts).status =
        Status.delayed) ∧
    (∀ kw, IndexTs.keywordSeverity kw = Status.delayed ∨
      IndexTs.keywordSeverity kw = Status.suspended) := by
  refine ⟨?_, ?_, ?_, ?_⟩
  · intro statusText infoText kw h
    simp [IndexTs.classifyKeiyo, h]
  · intro statusText kw h
    simp [IndexTs.classifyHibiya, h]
  · intro statusText cap ts h1 h2
    simp [CheckDelay.checkJRKeiyo, h1, h2]
  · intro kw
    unfold IndexTs.keywordSeverity
    split
    · exact Or.inr rfl
    · exact Or.inl rfl

/-- C2 witness: concrete instantiations of `c2_disruption_precedence` — the
index.ts classifiers pick `遅延`'s severity even with `平常運転` present, and
`checkJRKeiyo` is `delayed` on a pure disruption text. -/
theorem c2_witness :
    (IndexTs.classifyKeiyo "遅延 平常運転" "").1 =
      IndexTs.keywordSeverity "遅延" ∧
    (IndexTs.classifyHibiya "遅延 平常運転").1 =
      IndexTs.keywordSeverity "遅延" ∧
    (CheckDelay.checkJRKeiyo (Except.ok "遅延発生") none "t").status =
      Status.delayed :=
  ⟨c2_disruption_precedence.1 "遅延 平常運転" "" "遅延" (by decide),
   c2_disruption_precedence.2.1 "遅延 平常運転" "遅延" (by decide),
   c2_disruption_precedence.2.2.1 "遅延発生" none "t" (by decide) (by decide)⟩

/-- C3 counterexample: on the exact text `運転見合わせ`, `checkMetroHibiya`
(which the claim covers) returns `delayed`, not the claimed `suspended`. -/
theorem c3_counterexample :
    containsKw "運転見合わせ" "運転見合" = true ∧
    (CheckDelay.checkMetroHibiya (Except.ok "運転見合わせ") none "t").status =
      Status.delayed ∧
    ¬ (CheckDelay.checkMetroHibiya (Except.ok "運転見合わせ") none "t").status =
      Status.suspended := by
  refine ⟨by decide, by decide, by decide⟩

/-- C3 (amended): the index.ts classifiers map a first-matching disruption
keyword containing `運休` or `見合` to `suspended` (so `運転見合わせ` is
`suspended` there), while the `part_001` checkers (`checkMetroHibiya` and the
Workers Yahoo checker) never produce `suspended` at all, classifying such
texts `delayed`. -/
theorem c3_suspension_keywords :
    (∀ statusText infoText kw,
      IndexTs.keiyoDelayKeywords.find? (fun k => containsKw statusText k) =
        some kw →
      (containsKw kw "運休" || containsKw kw "見合") = true →
      (IndexTs.classifyKeiyo statusText infoText).1 = Status.suspended) ∧
    (∀ statusText kw,
      IndexTs.hibiyaDelayKeywords.find? (fun k => containsKw statusText k) =
        some kw →
      (containsKw kw "運休" || containsKw kw "見合") = true →
      (IndexTs.classifyHibiya statusText).1 = Status.suspended) ∧
    (∀ f cap ts,
      (CheckDelay.checkMetroHibiya f cap ts).status ≠ Status.suspended) ∧
    (∀ lk f cap ts,
      (Worker.checkYahooTransit lk f cap ts).status ≠ Status.suspended) := by
  refine ⟨?_, ?_, metroHibiyaNeSuspended, yahooV2NeSuspended⟩
  · intro statusText infoText kw h hkw
    simp [IndexTs.classifyKeiyo, h, IndexTs.keywordSeverity, hkw]
  · intro statusText kw h hkw
    simp [IndexTs.classifyHibiya, h, IndexTs.keywordSeverity, hkw]

/-- C3 witness: `c3_suspension_keywords` instantiated at the text
`運転見合わせ`, whose first matching keyword is `運転見合`. -/
theorem c3_witness :
    (IndexTs.classifyKeiyo "運転見合わせ" "").1 = Status.suspended ∧
    (IndexTs.classifyHibiya "運転見合わせ").1 = Status.suspended :=
  ⟨c3_suspension_keywords.1 "運転見合わせ" "" "運転見合" (by decide) (by decide),
   c3_suspension_keywords.2.1 "運転見合わせ" "運転見合" (by decide) (by decide)⟩

/-- C4 counterexample: the empty text matches neither keyword set, yet the
JR-Keiyo classifier of `check-delay.ts` defaults to `normal`, not the claimed
`unknown`. -/
theorem c4_counterexample :
    yahooDelayTest "" = false ∧
    CheckDelay.jrKeiyoNormalTest "" = false ∧
    (CheckDelay.checkJRKeiyo (Except.ok "") none "t").status = Status.normal ∧
    ¬ (CheckDelay.checkJRKeiyo (Except.ok "") none "t").status =
      Status.unknown := by
  refine ⟨by decide, by decide, by decide, by decide⟩

/-- C4 (amended): with no keyword match the defaults are deterministic and
per-checker: the `index.ts` Keiyo checker yields `unknown` with the
page-structure message and the `index.ts` Hibiya checker `normal` with the
no-information message, while both `check-delay.ts` checkers (`checkJRKeiyo`
and the Yahoo checker) default to `normal` with message `平常運転`. -/
theorem c4_no_keyword_defaults :
    (∀ statusText infoText now,
      (∀ kw ∈ IndexTs.keiyoDelayKeywords, containsKw statusText kw = false) →
      (∀ kw ∈ IndexTs.keiyoNormalKeywords, containsKw statusText kw = false) →
      IndexTs.checkKeiyoLine (Except.ok (statusText, infoText)) now =
        { lineName := "京葉線", operator := "JR東日本",
          status := Status.unknown,
          message := "ステータス不明（ページ構造が変更された可能性）",
          timestamp := now }) ∧
    (∀ statusText now,
      (∀ kw ∈ IndexTs.hibiyaDelayKeywords, containsKw statusText kw = false) →
      (∀ kw ∈ IndexTs.hibiyaNormalKeywords, containsKw statusText kw = false) →
      IndexTs.checkHibiyaLine (Except.ok statusText) now =
        { lineName := "日比谷線", operator := "東京メトロ",
          status := Status.normal,
          message := "運行情報なし（15分以上の遅延なし）",
          timestamp := now }) ∧
    (∀ statusText cap ts, yahooDelayTest statusText = false →
      (CheckDelay.checkJRKeiyo (Except.ok statusText) cap ts).status =
        Status.normal ∧
      (CheckDelay.checkJRKeiyo (Except.ok statusText) cap ts).message =
        "平常運転") ∧
    (∀ lk statusArea ts, yahooDelayTest statusArea = false →
      (CheckDelay.checkYahooTransit lk (Except.ok statusArea) ts).status =
        Status.normal ∧
      (CheckDelay.checkYahooTransit lk (Except.ok statusArea) ts).message =
        "平常運転") := by
  refine ⟨?_, ?_, ?_, ?_⟩
  · intro statusText infoText now h1 h2
    have hf1 : IndexTs.keiyoDelayKeywords.find?
        (fun k => containsKw statusText k) = none :=
      List.find?_eq_none.mpr fun kw hkw => by simp [h1 kw hkw]
    have hf2 : IndexTs.keiyoNormalKeywords.find?
        (fun k => containsKw statusText k) = none :=
      List.find?_eq_none.mpr fun kw hkw => by simp [h2 kw hkw]
    simp [IndexTs.checkKeiyoLine, IndexTs.classifyKeiyo, hf1, hf2]
  · intro statusText now h1 h2
    have hf1 : IndexTs.hibiyaDelayKeywords.find?
        (fun k => containsKw statusText k) = none :=
      List.find?_eq_none.mpr fun kw hkw => by simp [h1 kw hkw]
    have hf2 : IndexTs.hibiyaNormalKeywords.find?
        (fun k => containsKw statusText k) = none :=
      List.find?_eq_none.mpr fun kw hkw => by simp [h2 kw hkw]
    simp [IndexTs.checkHibiyaLine, IndexTs.classifyHibiya, hf1, hf2]
  · intro statusText cap ts h
    constructor <;> simp [CheckDelay.checkJRKeiyo, h]
  · intro lk statusArea ts h
    constructor <;> simp [CheckDelay.checkYahooTransit, h]

/-- C4 witness: `c4_no_keyword_defaults` instantiated at the empty text. -/
theorem c4_witness :
    IndexTs.checkKeiyoLine (Except.ok ("", "")) 0 =
      { lineName := "京葉線", operator := "JR東日本",
        status := Status.unknown,
        message := "ステータス不明（ページ構造が変更された可能性）",
        timestamp := 0 } ∧
    IndexTs.checkHibiyaLine (Except.ok "") 0 =
      { lineName := "日比谷線", operator := "東京メトロ",
        status := Status.normal,
        message := "運行情報なし（15分以上の遅延なし）",
        timestamp := 0 } ∧
    (CheckDelay.checkJRKeiyo (Except.ok "") none "t").status = Status.normal ∧
    (CheckDelay.checkYahooTransit .hibiya (Except.ok "") "t").status =
      Status.normal :=
  ⟨c4_no_keyword_defaults.1 "" "" 0 (by decide) (by decide),
   c4_no_keyword_defaults.2.1 "" 0 (by decide) (by decide),
   (c4_no_keyword_defaults.2.2.1 "" none "t" (by decide)).1,
   (c4_no_keyword_defaults.2.2.2 .hibiya "" "t" (by decide)).1⟩

/-- C5: a retrieval failure (thrown fetch error or the non-ok `HTTP n`
throw) is absorbed by the checker's catch block into an `unknown` status
whose message carries the failure description, it never escapes (the checker
is a total function into `LineStatus`), and the aggregate keeps each line's
entry a function of that line's own fetch only, in configuration order. -/
theorem c5_retrieval_failure_isolation :
    (∀ e now, IndexTs.checkKeiyoLine (Except.error e) now =
      { lineName := "京葉線", operator := "JR東日本",
        status := Status.unknown, message := "チェック失敗: " ++ e,
        timestamp := now }) ∧
    (∀ e now, IndexTs.checkHibiyaLine (Except.error e) now =
      { lineName := "日比谷線", operator := "東京メトロ",
        status := Status.unknown, message := "チェック失敗: " ++ e,
        timestamp := now }) ∧
    (∀ fk fh now, (IndexTs.checkAllLines fk fh now).lines =
      [IndexTs.checkKeiyoLine fk now, IndexTs.checkHibiyaLine fh now]) :=
  ⟨fun _ _ => rfl, fun _ _ => rfl, fun _ _ _ => rfl⟩

/-- C6 counterexample: a run whose aggregate has `hasDelay = true` but whose
email configuration is empty performs zero send invocations — `exactly once
when the flag is true` fails as stated. -/
theorem c6_counterexample :
    (IndexTs.checkAllLines (Except.ok ("遅延", "")) (Except.ok "平常運転")
      0).hasDelay = true ∧
    (IndexTs.mainDispatch
        { toEmail := "", fromEmail := "", smtpHost := "smtp.gmail.com",
          smtpPort := 587, smtpUser := "", smtpPass := "" }
        (IndexTs.checkAllLines (Except.ok ("遅延", "")) (Except.ok "平常運転") 0)
        "2024/1/15 18:20:00" (Except.ok ())).1 = [] := by
  constructor <;> decide

/-- C6 (amended): a false flag always means zero send invocations; a true
flag means exactly one invocation carrying the formatted payload **provided
the mail configuration is complete** (recipient, SMTP user and password in
`index.ts`; API key and recipient in `check-delay.ts`), and zero otherwise. -/
theorem c6_dispatch_counts :
    (∀ cfg result nowStr outcome, result.hasDelay = false →
      (IndexTs.mainDispatch cfg result nowStr outcome).1 = []) ∧
    (∀ cfg result nowStr outcome, result.hasDelay = true →
      ¬ (cfg.toEmail = "" ∨ cfg.smtpUser = "" ∨ cfg.smtpPass = "") →
      (IndexTs.mainDispatch cfg result nowStr outcome).1 =
        [IndexTs.mailPayload cfg result nowStr]) ∧
    (∀ apiKey toEmail fromv results jst outcome,
      CheckDelay.hasDelays results = false →
      (CheckDelay.mainSends apiKey toEmail fromv results jst outcome).1 =
        []) ∧
    (∀ apiKey toEmail fromv results jst outcome,
      CheckDelay.hasDelays results = true →
      ¬ (apiKey = "" ∨ toEmail = "") →
      (CheckDelay.mainSends apiKey toEmail fromv results jst
        outcome).1.length = 1) := by
  refine ⟨?_, ?_, ?_, ?_⟩
  · intro cfg result nowStr outcome h
    simp [IndexTs.mainDispatch, h]
  · intro cfg result nowStr outcome h hc
    simp [IndexTs.mainDispatch, h, IndexTs.sendEmail, hc]
  · intro apiKey toEmail fromv results jst outcome h
    simp [CheckDelay.mainSends, h]
  · intro apiKey toEmail fromv results jst outcome h hc
    have hne := resendDelayedLinesNeNil results h
    cases outcome with
    | ok r =>
      rcases r with ⟨rok, rbody⟩
      cases rok <;>
        simp [CheckDelay.mainSends, CheckDelay.sendEmail, h, hne, hc]
    | error e =>
      simp [CheckDelay.mainSends, CheckDelay.sendEmail, h, hne, hc]

/-- C6 witness: concrete instantiations of all four parts of
`c6_dispatch_counts`. -/
theorem c6_witness :
    (IndexTs.mainDispatch
        { toEmail := "a@b.c", fromEmail := "u@g.d", smtpHost := "smtp.gmail.com",
          smtpPort := 587, smtpUser := "u@g.d", smtpPass := "p" }
        (IndexTs.checkAllLines (Except.ok ("平常運転", ""))
          (Except.ok "平常運転") 0)
        "now" (Except.ok ())).1 = [] ∧
    (IndexTs.mainDispatch
        { toEmail := "a@b.c", fromEmail := "u@g.d", smtpHost := "smtp.gmail.com",
          smtpPort := 587, smtpUser := "u@g.d", smtpPass := "p" }
        (IndexTs.checkAllLines (Except.ok ("遅延", "")) (Except.ok "平常運転") 0)
        "now" (Except.ok ())).1 =
      [IndexTs.mailPayload
        { toEmail := "a@b.c", fromEmail := "u@g.d", smtpHost := "smtp.gmail.com",
          smtpPort := 587, smtpUser := "u@g.d", smtpPass := "p" }
        (IndexTs.checkAllLines (Except.ok ("遅延", "")) (Except.ok "平常運転") 0)
        "now"] ∧
    (CheckDelay.mainSends "k" "a@b.c" ""
        [ { line := "日比谷線", operator := "東京メトロ", status := Status.normal,
            message := "平常運転", timestamp := "t" } ]
        "jst" (Except.ok { ok := true, body := "" })).1 = [] ∧
    (CheckDelay.mainSends "k" "a@b.c" "" oneDelayedKeiyo
        "jst" (Except.ok { ok := true, body := "" })).1.length = 1 :=
  ⟨c6_dispatch_counts.1 _ _ "now" _ (by decide),
   c6_dispatch_counts.2.1 _ _ "now" _ (by decide) (by decide),
   c6_dispatch_counts.2.2.1 "k" "a@b.c" "" _ "jst" _ (by decide),
   c6_dispatch_counts.2.2.2 "k" "a@b.c" "" oneDelayedKeiyo "jst" _
     (by decide) (by decide)⟩

/-- C7 counterexample: with a complete configuration, a transport failure
inside `index.ts`'s `sendEmail` is **not** caught there — the rejection
escapes the function (only the top-level `main().catch` sees it). -/
theorem c7_counterexample :
    (IndexTs.sendEmail
        { toEmail := "a@b.c", fromEmail := "u@g.d", smtpHost := "smtp.gmail.com",
          smtpPort := 587, smtpUser := "u@g.d", smtpPass := "p" }
        (IndexTs.checkAllLines (Except.ok ("遅延", "")) (Except.ok "平常運転") 0)
        "now" (Except.error "SMTP connection refused")).2 =
      Except.error "SMTP connection refused" := by
  rfl

/-- C7 (amended): the Resend-based `sendEmail` of `check-delay.ts` and of
the Workers version catches every transport failure (it always returns
normally, logging the failure) and attempts at most one send; `index.ts`'s
`sendEmail` also never retries, but does not catch: whenever it invokes the
transport and the transport fails, the failure propagates out of the
function. -/
theorem c7_send_failure_handling :
    (∀ apiKey toEmail fromv delays jst outcome,
      (CheckDelay.sendEmail apiKey toEmail fromv delays jst outcome).2.2 =
        Except.ok () ∧
      (CheckDelay.sendEmail apiKey toEmail fromv delays jst
        outcome).1.length ≤ 1) ∧
    (∀ env delays jst outcome,
      (Worker.sendEmail env delays jst outcome).2.2 = Except.ok () ∧
      (Worker.sendEmail env delays jst outcome).1.length ≤ 1) ∧
    (∀ cfg result nowStr outcome,
      (IndexTs.sendEmail cfg result nowStr outcome).1.length ≤ 1) ∧
    (∀ cfg result nowStr e,
      (IndexTs.sendEmail cfg result nowStr (Except.error e)).1 ≠ [] →
      (IndexTs.sendEmail cfg result nowStr (Except.error e)).2 =
        Except.error e) := by
  refine ⟨?_, ?_, ?_, ?_⟩
  · intro apiKey toEmail fromv delays jst outcome
    constructor
    · simp only [CheckDelay.sendEmail]
      split
      · rfl
      · split
        · rfl
        · cases outcome with
          | ok r => dsimp only; split <;> rfl
          | error e => rfl
    · simp only [CheckDelay.sendEmail]
      split
      · simp
      · split
        · simp
        · cases outcome with
          | ok r => dsimp only; split <;> simp
          | error e => simp
  · intro env delays jst outcome
    constructor
    · simp only [Worker.sendEmail]
      split
      · rfl
      · split
        · rfl
        · cases outcome with
          | ok r => dsimp only; split <;> rfl
          | error e => rfl
    · simp only [Worker.sendEmail]
      split
      · simp
      · split
        · simp
        · cases outcome with
          | ok r => dsimp only; split <;> simp
          | error e => simp
  · intro cfg result nowStr outcome
    simp only [IndexTs.sendEmail]
    split <;> simp
  · intro cfg result nowStr e h
    by_cases hc : cfg.toEmail = "" ∨ cfg.smtpUser = "" ∨ cfg.smtpPass = ""
    · simp [IndexTs.sendEmail, hc] at h
    · simp [IndexTs.sendEmail, hc]

/-- C7 witness: `c7_send_failure_handling` applied to a failing transport
run with a complete configuration. -/
theorem c7_witness :
    (IndexTs.sendEmail
        { toEmail := "a@b.c", fromEmail := "u@g.d", smtpHost := "smtp.gmail.com",
          smtpPort := 587, smtpUser := "u@g.d", smtpPass := "p" }
        (IndexTs.checkAllLines (Except.ok ("遅延", "")) (Except.ok "平常運転") 0)
        "now" (Except.error "boom")).2 = Except.error "boom" ∧
    (CheckDelay.sendEmail "k" "a@b.c" "" oneDelayedKeiyo
        "jst" (Except.error "boom")).2.2 = Except.ok () :=
  ⟨c7_send_failure_handling.2.2.2 _ _ "now" "boom"
      (by decide),
   (c7_send_failure_handling.1 "k" "a@b.c" "" oneDelayedKeiyo "jst"
     (Except.error "boom")).1⟩

/-- C8 counterexample: for a run with one `suspended` and one `delayed`
line, the `check-delay.ts` subject lists only the `delayed` line — the
`suspended` line's name is missing, so the subject does not contain the
names of exactly the delayed/suspended lines. -/
theorem c8_counterexample :
    ((CheckDelay.sendEmail "key" "a@b.c" "" suspendedAndDelayed
        "jst" (Except.ok { ok := true, body := "" })).1.map (·.subject)) =
      ["🚃 電車遅延通知: 京葉線"] ∧
    claimSubjectResend suspendedAndDelayed =
      "🚃 電車遅延通知: 日比谷線, 京葉線" ∧
    ("🚃 電車遅延通知: 京葉線" : String) ≠
      "🚃 電車遅延通知: 日比谷線, 京葉線" := by
  refine ⟨by decide, by decide, by decide⟩

/-- C8 (amended): every payload the `index.ts` `sendEmail` hands to the
transport has exactly the claimed subject (delayed and suspended lines,
comma-joined, in result order); the `part_001` `sendEmail` subject instead
joins only the lines whose status is `delayed` — `suspended` lines are
omitted (the two agree on everything its checkers actually produce, since
those never emit `suspended`). -/
theorem c8_subject_contents :
    (∀ cfg result nowStr outcome p,
      p ∈ (IndexTs.sendEmail cfg result nowStr outcome).1 →
      p.subject = claimSubjectIndex result) ∧
    (∀ apiKey toEmail fromv delays jst outcome p,
      p ∈ (CheckDelay.sendEmail apiKey toEmail fromv delays jst outcome).1 →
      p.subject = "🚃 電車遅延通知: " ++ String.intercalate ", "
        ((delays.filter fun d => d.status == Status.delayed).map (·.line))) := by
  constructor
  · intro cfg result nowStr outcome p hp
    simp only [IndexTs.sendEmail] at hp
    split at hp
    · cases hp
    · rcases List.mem_singleton.mp hp with rfl
      rfl
  · intro apiKey toEmail fromv delays jst outcome p hp
    simp only [CheckDelay.sendEmail] at hp
    split at hp
    · cases hp
    · split at hp
      · cases hp
      · cases outcome with
        | ok r =>
          dsimp only at hp
          split at hp <;>
            · rcases List.mem_singleton.mp hp with rfl
              rfl
        | error e =>
          rcases List.mem_singleton.mp hp with rfl
          rfl

/-- C8 witness: `c8_subject_contents` applied to concrete payloads of both
pipelines. -/
theorem c8_witness :
    (IndexTs.mailPayload
        { toEmail := "a@b.c", fromEmail := "u@g.d", smtpHost := "smtp.gmail.com",
          smtpPort := 587, smtpUser := "u@g.d", smtpPass := "p" }
        (IndexTs.checkAllLines (Except.ok ("遅延", "")) (Except.ok "平常運転") 0)
        "now").subject =
      claimSubjectIndex
        (IndexTs.checkAllLines (Except.ok ("遅延", "")) (Except.ok "平常運転")
          0) ∧
    ({ fromEmail := "onboarding@resend.dev", toEmail := "a@b.c",
       subject := CheckDelay.resendSubject
         (CheckDelay.resendDelayedLines oneDelayedKeiyo),
       html := CheckDelay.resendHtml "jst"
         (CheckDelay.resendDelayedLines oneDelayedKeiyo) } :
       CheckDelay.ResendPayload).subject =
      "🚃 電車遅延通知: " ++ String.intercalate ", "
        ((oneDelayedKeiyo.filter fun d =>
            d.status == Status.delayed).map (·.line)) := by
  constructor
  · exact c8_subject_contents.1
      { toEmail := "a@b.c", fromEmail := "u@g.d", smtpHost := "smtp.gmail.com",
        smtpPort := 587, smtpUser := "u@g.d", smtpPass := "p" }
      (IndexTs.checkAllLines (Except.ok ("遅延", "")) (Except.ok "平常運転") 0)
      "now" (Except.ok ()) _ (List.mem_singleton.mpr rfl)
  · exact c8_subject_contents.2 "k" "a@b.c" "" oneDelayedKeiyo "jst"
      (Except.ok { ok := true, body := "" }) _ (List.mem_singleton.mpr rfl)

/-- C9 (amended): the Yahoo-based checkers and `checkJRKeiyo` do truncate
their success-path messages (to 300 and 200 characters respectively); the
`index.ts` Keiyo checker does not (see `c9_counterexample`), and failure
messages embed the raw error text unbounded in every checker. -/
theorem c9_message_bounds :
    (∀ lk text ts,
      (CheckDelay.checkYahooTransit lk (Except.ok text) ts).message.length ≤
        300) ∧
    (∀ text cap ts,
      (CheckDelay.checkJRKeiyo (Except.ok text) cap ts).message.length ≤
        200) ∧
    (∀ lk html cap ts,
      (Worker.checkYahooTransit lk (Except.ok html) cap ts).message.length ≤
        300) := by
  refine ⟨?_, ?_, ?_⟩
  · intro lk text ts
    simp only [CheckDelay.checkYahooTransit]
    split
    · exact jsSubstringLenLe text 300
    · show ("平常運転" : String).length ≤ 300
      decide
  · intro text cap ts
    simp only [CheckDelay.checkJRKeiyo]
    split
    · cases cap with
      | some m => exact jsSubstringLenLe m 200
      | none =>
        show ("延误详情请查看官网" : String).length ≤ 200
        decide
    · show ("平常運転" : String).length ≤ 200
      decide
  · intro lk html cap ts
    simp only [Worker.checkYahooTransit]
    split
    · cases cap with
      | some m => exact jsSubstringLenLe m 300
      | none =>
        show ("延误详情请查看官网" : String).length ≤ 300
        decide
    · show ("平常運転" : String).length ≤ 300
      decide

set_option maxRecDepth 100000 in
/-- C9 counterexample: a page whose body contains `遅延` and whose info
element carries 301 characters makes the `index.ts` Keiyo checker emit a
301-character message — no truncation to ~300 exists on that path. -/
theorem c9_counterexample :
    (IndexTs.checkKeiyoLine
        (Except.ok ("遅延", String.mk (List.replicate 301 'あ'))) 0).status =
      Status.delayed ∧
    300 < (IndexTs.checkKeiyoLine
        (Except.ok ("遅延", String.mk (List.replicate 301 'あ')))
        0).message.length := by
  constructor <;> decide

/-- C10: when the mail configuration is incomplete (empty recipient, SMTP
user or password in `index.ts`; empty API key or recipient in the two
Resend versions), the dispatch functions return before any transport
invocation, even for a result that requires notification. -/
theorem c10_incomplete_config_skips_send :
    (∀ cfg result nowStr outcome,
      (cfg.toEmail = "" ∨ cfg.smtpUser = "" ∨ cfg.smtpPass = "") →
      (IndexTs.sendEmail cfg result nowStr outcome).1 = [] ∧
      (IndexTs.mainDispatch cfg result nowStr outcome).1 = []) ∧
    (∀ apiKey toEmail fromv delays jst outcome,
      (apiKey = "" ∨ toEmail = "") →
      (CheckDelay.sendEmail apiKey toEmail fromv delays jst outcome).1 =
        []) ∧
    (∀ env delays jst outcome,
      (env.RESEND_API_KEY = "" ∨ env.TO_EMAIL = "") →
      (Worker.sendEmail env delays jst outcome).1 = []) := by
  refine ⟨?_, ?_, ?_⟩
  · intro cfg result nowStr outcome hc
    have hs : (IndexTs.sendEmail cfg result nowStr outcome).1 = [] := by
      simp [IndexTs.sendEmail, hc]
    refine ⟨hs, ?_⟩
    unfold IndexTs.mainDispatch
    split
    · exact hs
    · rfl
  · intro apiKey toEmail fromv delays jst outcome hc
    simp [CheckDelay.sendEmail, hc]
  · intro env delays jst outcome hc
    simp [Worker.sendEmail, hc]

/-- C10 witness: `c10_incomplete_config_skips_send` applied to runs with a
delayed line but an empty recipient / API key. -/
theorem c10_witness :
    (IndexTs.mainDispatch
        { toEmail := "", fromEmail := "u@g.d", smtpHost := "smtp.gmail.com",
          smtpPort := 587, smtpUser := "u@g.d", smtpPass := "p" }
        (IndexTs.checkAllLines (Except.ok ("遅延", "")) (Except.ok "平常運転") 0)
        "now" (Except.ok ())).1 = [] ∧
    (CheckDelay.sendEmail "" "a@b.c" "" oneDelayedKeiyo
        "jst" (Except.ok { ok := true, body := "" })).1 = [] ∧
    (Worker.sendEmail
        { RESEND_API_KEY := "", TO_EMAIL := "a@b.c", FROM_EMAIL := "" }
        oneDelayedKeiyo
        "jst" (Except.ok { ok := true, body := "" })).1 = [] :=
  ⟨(c10_incomplete_config_skips_send.1 _ _ "now" _ (Or.inl rfl)).2,
   c10_incomplete_config_skips_send.2.1 "" "a@b.c" "" oneDelayedKeiyo "jst" _
     (Or.inl rfl),
   c10_incomplete_config_skips_send.2.2 _ _ "jst" _ (Or.inl rfl)⟩
